import Mathlib

/-!
Verification of the Dremio metadata extractor components
(`dremio_table_column_extractor.py`, `dremio_odbc_sql_query_builder.py`)
via a shallow embedding of their row-grouping and query-construction logic.
-/

set_option autoImplicit false

namespace Dremio

/-- A cursor row as produced by `_get_raw_extract_iter`: a dictionary with the
eleven aliased fields of `SQL_STATEMENT`'s SELECT list.  The SQL `is_view`
boolean is delivered by the ODBC driver as the lowercase string rendering
(`"true"` / `"false"`), which is what the Python comparison
`last_row['is_view'] == 'true'` consumes. -/
structure Row where
  col_name : String
  col_description : Option String
  col_type : String
  col_sort_order : Nat
  database : String
  cluster : String
  schema : String
  name : String
  description : String
  is_view : String
  tags : String
deriving DecidableEq, Repr

/-- `ColumnMetadata` from the downstream model (shape assumed fixed):
name, description, type, sort order, in constructor-argument order. -/
structure ColumnMetadata where
  name : String
  description : Option String
  col_type : String
  sort_order : Nat
deriving DecidableEq, Repr

/-- `TableMetadata` from the downstream model (shape assumed fixed). -/
structure TableMetadata where
  database : String
  cluster : String
  schema : String
  name : String
  description : String
  columns : List ColumnMetadata
  is_view : Bool
  tags : Option (List String)
deriving DecidableEq, Repr

/-- `TableKey = namedtuple('TableKey', ['schema', 'table_name'])`. -/
structure TableKey where
  schema : String
  table_name : String
deriving DecidableEq, Repr

/-- `_get_table_key`: key of a row is `(schema, name)`.  (The Python function
returns `None` only for a falsy row; cursor rows are always non-empty dicts,
so the embedding is total.) -/
def tableKey (row : Row) : TableKey :=
  { schema := row.schema, table_name := row.name }

/-- ASCII whitespace recognized by Python `str.split(None)` (the Unicode
whitespace beyond ASCII is irrelevant to the tag strings considered here). -/
def isPySpace (c : Char) : Bool :=
  c == ' ' || c == '\t' || c == '\n' || c == '\r' ||
    c == Char.ofNat 11 || c == Char.ofNat 12

/-- Python `str.split` with `sep=None` (whitespace mode), on an explicit
character list with an accumulator for the current field: runs of whitespace
separate fields and empty fields are dropped. -/
def pySplitWsAux : List Char → List Char → List String
  | [], [] => []
  | [], acc => [String.mk acc.reverse]
  | c :: cs, acc =>
    if isPySpace c then
      match acc with
      | [] => pySplitWsAux cs []
      | _ => String.mk acc.reverse :: pySplitWsAux cs []
    else
      pySplitWsAux cs (c :: acc)

/-- Python `s.split(None)`: split on runs of whitespace, discarding empties. -/
def pySplitNone (s : String) : List String :=
  pySplitWsAux s.toList []

/-- If `pre` is a prefix of the character list, return the remainder. -/
def stripPrefixChars : List Char → List Char → Option (List Char)
  | [], cs => some cs
  | _ :: _, [] => none
  | p :: ps, c :: cs => if c == p then stripPrefixChars ps cs else none

/-- Python `s.split(sep)` with an explicit non-empty separator: scan left to
right, cut at each non-overlapping occurrence of the separator, fields may be
empty.  `fuel` (initialised to more than the input length) only makes the
recursion structural: every step consumes at least one input character, so
the fuel is never exhausted for a non-empty separator. -/
def pySplitSepAux (sep : List Char) : Nat → List Char → List Char → List String
  | 0, cs, acc => [String.mk (acc.reverse ++ cs)]
  | _ + 1, [], acc => [String.mk acc.reverse]
  | fuel + 1, c :: cs, acc =>
    match stripPrefixChars sep (c :: cs) with
    | some rest => String.mk acc.reverse :: pySplitSepAux sep fuel rest []
    | none => pySplitSepAux sep fuel cs (c :: acc)

/-- Python `s.split(sep)`: explicit separator splits on each occurrence
(Python raises on an empty separator, which no caller here supplies);
`sep=None` is whitespace mode. -/
def pySplit (s : String) : Option String → List String
  | some sep => pySplitSepAux sep.toList (s.toList.length + 1) s.toList []
  | none => pySplitNone s

/-- The per-row `ColumnMetadata(row['col_name'], row['col_description'],
row['col_type'], row['col_sort_order'])` constructed inside the group loop of
`_get_extract_iter`. -/
def buildColumn (row : Row) : ColumnMetadata :=
  { name := row.col_name
    description := row.col_description
    col_type := row.col_type
    sort_order := row.col_sort_order }

/-- The `TableMetadata` yielded for one group of `_get_extract_iter`, given as
head row `a` and remaining rows `run` (a group produced by `groupby` is never
empty).  `last_row` is the final row of the loop; `columns` collects one
`ColumnMetadata` per row in arrival order; `is_view` is the comparison
`last_row['is_view'] == 'true'`; `tags` is
`last_row['tags'].split(self._tags_separator) if last_row['tags'] else None`. -/
def buildTableMetadata (sep : Option String) (a : Row) (run : List Row) : TableMetadata :=
  let last_row := run.getLastD a
  { database := last_row.database
    cluster := last_row.cluster
    schema := last_row.schema
    name := last_row.name
    description := last_row.description
    columns := (a :: run).map buildColumn
    is_view := last_row.is_view == "true"
    tags := if last_row.tags ≠ "" then some (pySplit last_row.tags sep) else none }

/-- Worker for `itertools.groupby(rows, self._get_table_key)`: `a` is the head
of the group currently being collected, `acc` its further members in reverse,
and the remaining input is scanned for rows whose key matches `tableKey a`. -/
def groupRunsAux (a : Row) (acc : List Row) : List Row → List (Row × List Row)
  | [] => [(a, acc.reverse)]
  | b :: bs =>
    if tableKey b == tableKey a then
      groupRunsAux a (b :: acc) bs
    else
      (a, acc.reverse) :: groupRunsAux b [] bs

/-- `itertools.groupby` keyed by `_get_table_key`: splits the row stream into
maximal runs of consecutive rows with equal `(schema, name)`; each group is
returned as its (head, tail) so that groups are non-empty by construction. -/
def groupRuns : List Row → List (Row × List Row)
  | [] => []
  | a :: as => groupRunsAux a [] as

/-- `_get_extract_iter`: one `TableMetadata` per `groupby` group, in stream
order. -/
def getExtractIter (sep : Option String) (rows : List Row) : List TableMetadata :=
  (groupRuns rows).map fun g => buildTableMetadata sep g.1 g.2

/-- The four-way WHERE-clause branch of `DremioTableColumnExtractor.init`
on the two configuration flags. -/
def buildWhereStmt (exclude_sys_tables exclude_pds_tables : Bool) : String :=
  if exclude_sys_tables && exclude_pds_tables then
    "WHERE nested_0.TABLE_TYPE != \x27SYSTEM_TABLE\x27 AND nested_0.TABLE_TYPE != \x27TABLE\x27;"
  else if exclude_sys_tables then
    "WHERE nested_0.TABLE_TYPE != \x27SYSTEM_TABLE\x27;"
  else if exclude_pds_tables then
    "WHERE nested_0.TABLE_TYPE != \x27TABLE\x27;"
  else
    ";"

/-- One result row of the three-way join underneath `SQL_STATEMENT`'s SELECT
list, before the SELECT list is applied: the column attributes come from
`INFORMATION_SCHEMA."COLUMNS"`, the table type from
`INFORMATION_SCHEMA."TABLES"`, and the nullable wiki/tags fields from the
collaboration metadata table. -/
structure SourceRow where
  COLUMN_NAME : String
  DATA_TYPE : String
  ORDINAL_POSITION : Nat
  TABLE_CATALOG : String
  TABLE_SCHEMA : String
  TABLE_NAME : String
  TABLE_TYPE : String
  WIKI : Option String
  TAGS : Option String
deriving DecidableEq, Repr

/-- The SELECT list of `SQL_STATEMENT` applied to one joined row: the two
`CASE WHEN ... IS NULL THEN ...` expressions default `description`/`tags` to
the empty string, and `is_view` is `CASE WHEN nested_0.TABLE_TYPE='VIEW' THEN
TRUE ELSE FALSE END`, delivered by the ODBC driver as its lowercase string
rendering. -/
def selectRow (cluster : String) (s : SourceRow) : Row :=
  { col_name := s.COLUMN_NAME
    col_description := none
    col_type := s.DATA_TYPE
    col_sort_order := s.ORDINAL_POSITION
    database := s.TABLE_CATALOG
    cluster := cluster
    schema := s.TABLE_SCHEMA
    name := s.TABLE_NAME
    description := match s.WIKI with | none => "" | some w => w
    is_view := if s.TABLE_TYPE = "VIEW" then "true" else "false"
    tags := match s.TAGS with | none => "" | some t => t }

/-- State of `self._extract_iter` inside `extract()`: `none` before the first
call (the generator is not yet created; `if not self._extract_iter` then
creates it), `some remaining` once the generator exists with `remaining`
records still to be yielded.  An exhausted generator object stays truthy, so
it is never recreated. -/
def nextFromIter : List TableMetadata → Option TableMetadata × Option (List TableMetadata)
  | [] => (none, some [])
  | t :: ts => (some t, some ts)

/-- One call of `extract()`: lazily create the iterator over `tables` (the
records `_get_extract_iter` will yield for the cursor contents), then return
`next` of it, with `StopIteration` caught and turned into `None`. -/
def extractStep (tables : List TableMetadata) :
    Option (List TableMetadata) → Option TableMetadata × Option (List TableMetadata)
  | none => nextFromIter tables
  | some remaining => nextFromIter remaining

/-! ### The query builder (`dremio_odbc_sql_query_builder.py`)

The two `Enum` classes are embedded as the string names of their members,
so that looking up a value outside the enumeration can be expressed: the
Python `dict` lookups keyed by enum members become association-list lookups
that fail (the `KeyError`) exactly off the member lists. -/

/-- Member names of `DremioOdbcSqlQueryBuilder.SqlStatement`. -/
def sqlStatementMembers : List String :=
  ["TABLE_OWNER_INIT", "APPLICATION"]

/-- Member names of `DremioOdbcSqlQueryBuilder.SqlWhereStatement`. -/
def sqlWhereStatementMembers : List String :=
  ["EXCLUDE_PDS_TABLES", "EXCLUDE_SYS_TABLES", "EXCLUDE_PDS_AND_SYS_TABLES", "INCLUDE_ALL"]

/-- `__TABLE_TYPE_NOT_PDS_EXPR = "{prefix}TABLE_TYPE != 'TABLE'"` with the
prefix substituted. -/
def tableTypeNotPdsExpr (pfx : String) : String :=
  pfx ++ "TABLE_TYPE != \x27TABLE\x27"

/-- `__TABLE_TYPE_NOT_SYS_EXPR = "{prefix}TABLE_TYPE != 'SYSTEM_TABLE'"` with
the prefix substituted. -/
def tableTypeNotSysExpr (pfx : String) : String :=
  pfx ++ "TABLE_TYPE != \x27SYSTEM_TABLE\x27"

/-- `__WHERE_STMT_MAPPING`, each value as a function of the substituted
`prefix`. -/
def whereStmtMapping : List (String × (String → String)) :=
  [("EXCLUDE_PDS_TABLES", fun pfx => "WHERE " ++ tableTypeNotPdsExpr pfx),
   ("EXCLUDE_SYS_TABLES", fun pfx => "WHERE " ++ tableTypeNotSysExpr pfx),
   ("EXCLUDE_PDS_AND_SYS_TABLES",
     fun pfx => "WHERE " ++ tableTypeNotPdsExpr pfx ++ " and " ++ tableTypeNotSysExpr pfx),
   ("INCLUDE_ALL", fun _ => "")]

/-- The keyword arguments the two templates substitute. -/
structure SqlKwargs where
  cluster : String
  owners : String
  task_id : String
  dag_id : String
  exec_date : String
  application_url_template : String
deriving DecidableEq, Repr

/-- `__TABLE_OWNER_INIT_STMT` with its three placeholders substituted. -/
def tableOwnerInitStmt (cluster owners whereStmt : String) : String :=
  "\n    SELECT\n      TABLE_CATALOG AS db_name,\n      TABLE_SCHEMA AS schema,\n      \x27"
    ++ cluster
    ++ "\x27 as cluster,\n      TABLE_NAME AS table_name,\n      \x27"
    ++ owners
    ++ "\x27 AS owners\n    FROM INFORMATION_SCHEMA.\"TABLES\"\n    "
    ++ whereStmt ++ ";\n    "

/-- `__APPLICATION_CONTEXT_INIT_STMT` with its six placeholders substituted. -/
def applicationContextInitStmt
    (task_id dag_id exec_date application_url_template cluster whereStmt : String) : String :=
  "\n    SELECT\n      \x27"
    ++ task_id
    ++ "\x27 as task_id,\n      \x27"
    ++ dag_id
    ++ "\x27 as dag_id,\n      \x27"
    ++ exec_date
    ++ "\x27 as exec_date,\n      \x27"
    ++ application_url_template
    ++ "\x27 as application_url_template,\n      TABLE_CATALOG AS db_name,\n      \x27"
    ++ cluster
    ++ "\x27 as cluster,\n      TABLE_SCHEMA AS schema,\n      TABLE_NAME AS table_name\n    FROM INFORMATION_SCHEMA.\"TABLES\"\n    "
    ++ whereStmt ++ ";\n    "

/-- `__SQL_STMT_MAPPING`, each template as a function of the keyword
arguments and the already-rendered `where_stmt`. -/
def sqlStmtMapping : List (String × (SqlKwargs → String → String)) :=
  [("TABLE_OWNER_INIT", fun kw w => tableOwnerInitStmt kw.cluster kw.owners w),
   ("APPLICATION", fun kw w =>
     applicationContextInitStmt kw.task_id kw.dag_id kw.exec_date
       kw.application_url_template kw.cluster w)]

/-- The `where_stmt` argument of `get_sql_statement`: `None`, a bare
`SqlWhereStatement` member, or a `(SqlWhereStatement, prefix)` tuple. -/
inductive WhereSpec where
  | absent
  | bare (kind : String)
  | withPfx (kind : String) (pfx : String)
deriving DecidableEq, Repr

/-- `DremioOdbcSqlQueryBuilder.get_sql_statement`: resolve the where spec to
`(stmt_type, stmt_prefix)` (defaulting to `INCLUDE_ALL` with empty prefix; a
non-empty prefix gets a trailing `.`), render the WHERE fragment from
`__WHERE_STMT_MAPPING`, then render the template from `__SQL_STMT_MAPPING`;
`none` models the `KeyError` of a failed dictionary lookup. -/
def get_sql_statement (sqlStmtEnum : String) (whereStmt : WhereSpec)
    (kwargs : SqlKwargs) : Option String :=
  let tp : String × String :=
    match whereStmt with
    | .absent => ("INCLUDE_ALL", "")
    | .bare kind => (kind, "")
    | .withPfx kind pfx => (kind, pfx)
  let stmtPfx := if tp.2 ≠ "" then tp.2 ++ "." else tp.2
  match whereStmtMapping.lookup tp.1 with
  | none => none
  | some wf =>
    match sqlStmtMapping.lookup sqlStmtEnum with
    | none => none
    | some tf => some (tf kwargs (wf stmtPfx))

/-- The where-statement member a `WhereSpec` resolves to (`INCLUDE_ALL` when
absent). -/
def whereKind : WhereSpec → String
  | .absent => "INCLUDE_ALL"
  | .bare kind => kind
  | .withPfx kind _ => kind

/-- The rendered WHERE fragment for member `k` and already-dotted prefix. -/
def whereFragment (k : String) (pfx : String) : Option String :=
  (whereStmtMapping.lookup k).map fun wf => wf pfx

/-- The rendered template `tid` with keyword arguments `kw` and WHERE
fragment `w`. -/
def renderStmt (tid : String) (kw : SqlKwargs) (w : String) : Option String :=
  (sqlStmtMapping.lookup tid).map fun tf => tf kw w

/-! ### Lemmas about the grouping -/

theorem groupRunsAux_eq (a : Row) (rest : List Row) : ∀ acc : List Row,
    groupRunsAux a acc rest =
      (a, acc.reverse ++ rest.takeWhile fun b => tableKey b == tableKey a) ::
        groupRuns (rest.dropWhile fun b => tableKey b == tableKey a) := by
  induction rest with
  | nil => intro acc; simp [groupRunsAux, groupRuns]
  | cons b bs ih =>
    intro acc
    by_cases h : tableKey b == tableKey a
    · simp [groupRunsAux, h, List.takeWhile_cons, List.dropWhile_cons, ih]
    · simp only [Bool.not_eq_true] at h
      simp [groupRunsAux, h, List.takeWhile_cons, List.dropWhile_cons, groupRuns]

theorem groupRuns_cons (a : Row) (as : List Row) :
    groupRuns (a :: as) =
      (a, as.takeWhile fun b => tableKey b == tableKey a) ::
        groupRuns (as.dropWhile fun b => tableKey b == tableKey a) := by
  simpa using groupRunsAux_eq a as []

theorem dropWhile_head_not {α : Type} (p : α → Bool) :
    ∀ (l : List α) (b : α) (bs : List α), l.dropWhile p = b :: bs → p b = false := by
  intro l
  induction l with
  | nil => intro b bs h; simp [List.dropWhile] at h
  | cons c cs ih =>
    intro b bs h
    rw [List.dropWhile_cons] at h
    by_cases hc : p c
    · simp only [hc, if_true] at h
      exact ih b bs h
    · simp only [hc, if_false] at h
      cases h
      simpa using hc

/-- Concatenating the groups back together recovers the input row stream. -/
theorem groupRuns_join : ∀ rows : List Row,
    ((groupRuns rows).flatMap fun g => g.1 :: g.2) = rows
  | [] => by simp [groupRuns]
  | a :: as => by
    rw [groupRuns_cons, List.flatMap_cons]
    rw [groupRuns_join (as.dropWhile fun b => tableKey b == tableKey a)]
    simp [List.takeWhile_append_dropWhile]
termination_by rows => rows.length
decreasing_by
  simp only [List.length_cons]
  exact Nat.lt_succ_of_le (List.dropWhile_sublist _).length_le

/-- Every row of a group carries the same table key as the group's head. -/
theorem groupRuns_const : ∀ rows : List Row, ∀ g ∈ groupRuns rows,
    ∀ b ∈ g.2, tableKey b = tableKey g.1
  | [] => by simp [groupRuns]
  | a :: as => by
    intro g hg b hb
    rw [groupRuns_cons] at hg
    rcases List.mem_cons.mp hg with h | h
    · subst h
      have := List.mem_takeWhile_imp hb
      simpa using this
    · exact groupRuns_const (as.dropWhile fun c => tableKey c == tableKey a) g h b hb
termination_by rows => rows.length
decreasing_by
  simp only [List.length_cons]
  exact Nat.lt_succ_of_le (List.dropWhile_sublist _).length_le

/-- Adjacent groups have distinct table keys (the runs are maximal). -/
theorem groupRuns_chain : ∀ rows : List Row,
    List.Chain' (fun g h : Row × List Row => tableKey g.1 ≠ tableKey h.1)
      (groupRuns rows)
  | [] => by simp [groupRuns]
  | a :: as => by
    rw [groupRuns_cons, List.chain'_cons']
    refine ⟨?_, groupRuns_chain (as.dropWhile fun b => tableKey b == tableKey a)⟩
    intro y hy
    rcases hd : as.dropWhile (fun b => tableKey b == tableKey a) with _ | ⟨b, bs⟩
    · rw [hd] at hy; simp [groupRuns] at hy
    · rw [hd, groupRuns_cons] at hy
      simp only [List.head?_cons, Option.mem_def, Option.some.injEq] at hy
      subst hy
      have hb := dropWhile_head_not _ as b bs hd
      simp only [beq_eq_false_iff_ne, ne_eq] at hb
      simp only [ne_eq]
      intro h
      exact hb h.symm
termination_by rows => rows.length
decreasing_by
  simp only [List.length_cons]
  exact Nat.lt_succ_of_le (List.dropWhile_sublist _).length_le

theorem getLastD_map {α β : Type} (f : α → β) :
    ∀ (l : List α) (a : α), (l.map f).getLastD (f a) = f (l.getLastD a) := by
  intro l
  induction l with
  | nil => intro a; simp
  | cons b bs ih =>
    intro a
    rw [List.map_cons, List.getLastD_cons, List.getLastD_cons]
    exact ih b

theorem getLast_cons_eq_getLastD {α : Type} :
    ∀ (l : List α) (a : α) (h : a :: l ≠ []), (a :: l).getLast h = l.getLastD a := by
  intro l
  induction l with
  | nil => intro a h; simp [List.getLast]
  | cons b bs ih =>
    intro a h
    rw [List.getLast_cons (List.cons_ne_nil b bs), ih b (List.cons_ne_nil b bs),
      List.getLastD_cons]

theorem pySplitWsAux_no_space :
    ∀ (cs acc : List Char), (∀ c ∈ cs, isPySpace c = false) →
      (acc ≠ [] ∨ cs ≠ []) → pySplitWsAux cs acc = [String.mk (acc.reverse ++ cs)] := by
  intro cs
  induction cs with
  | nil =>
    intro acc _ hne
    rcases acc with _ | ⟨x, xs⟩
    · rcases hne with h | h <;> simp at h
    · simp [pySplitWsAux]
  | cons c cs' ih =>
    intro acc hc _
    have hcf : isPySpace c = false := hc c (List.mem_cons_self c cs')
    have := ih (c :: acc) (fun d hd => hc d (List.mem_cons_of_mem c hd)) (Or.inl (by simp))
    simp [pySplitWsAux, hcf, this]

theorem pySplitNone_single (s : String) (h1 : s ≠ "")
    (h2 : ∀ c ∈ s.toList, isPySpace c = false) : pySplitNone s = [s] := by
  have hne : s.toList ≠ [] := by
    intro h
    apply h1
    have : String.mk s.toList = String.mk [] := by rw [h]
    exact this
  rw [pySplitNone, pySplitWsAux_no_space s.toList [] h2 (Or.inr hne)]
  rfl

theorem lookup_whereStmtMapping_isSome (k : String) :
    (whereStmtMapping.lookup k).isSome = true ↔ k ∈ sqlWhereStatementMembers := by
  by_cases h1 : k = "EXCLUDE_PDS_TABLES"
  · subst h1; decide
  by_cases h2 : k = "EXCLUDE_SYS_TABLES"
  · subst h2; decide
  by_cases h3 : k = "EXCLUDE_PDS_AND_SYS_TABLES"
  · subst h3; decide
  by_cases h4 : k = "INCLUDE_ALL"
  · subst h4; decide
  have e1 : (k == "EXCLUDE_PDS_TABLES") = false := beq_eq_false_iff_ne.mpr h1
  have e2 : (k == "EXCLUDE_SYS_TABLES") = false := beq_eq_false_iff_ne.mpr h2
  have e3 : (k == "EXCLUDE_PDS_AND_SYS_TABLES") = false := beq_eq_false_iff_ne.mpr h3
  have e4 : (k == "INCLUDE_ALL") = false := beq_eq_false_iff_ne.mpr h4
  simp [whereStmtMapping, sqlWhereStatementMembers, List.lookup, e1, e2, e3, e4,
    h1, h2, h3, h4]

theorem lookup_sqlStmtMapping_isSome (t : String) :
    (sqlStmtMapping.lookup t).isSome = true ↔ t ∈ sqlStatementMembers := by
  by_cases h1 : t = "TABLE_OWNER_INIT"
  · subst h1; decide
  by_cases h2 : t = "APPLICATION"
  · subst h2; decide
  have e1 : (t == "TABLE_OWNER_INIT") = false := beq_eq_false_iff_ne.mpr h1
  have e2 : (t == "APPLICATION") = false := beq_eq_false_iff_ne.mpr h2
  simp [sqlStmtMapping, sqlStatementMembers, List.lookup, e1, e2, h1, h2]

/-! ### Concrete inputs used by the examples and witnesses -/

/-- A cursor row for column `col` of table `(schema, name)` with neutral
remaining fields. -/
def mkRow (schema name col : String) : Row :=
  { col_name := col, col_description := none, col_type := "int", col_sort_order := 1,
    database := "db", cluster := "Production", schema := schema, name := name,
    description := "", is_view := "false", tags := "" }

/-- The three-row example: two `t1` rows followed by one `t2` row. -/
def rowsContig : List Row :=
  [mkRow "s" "t1" "a", mkRow "s" "t1" "b", mkRow "s" "t2" "c"]

/-- The non-contiguous example: two `t1` rows separated by a `t2` row. -/
def rowsSplit : List Row :=
  [mkRow "s" "t1" "a", mkRow "s" "t2" "b", mkRow "s" "t1" "c"]

/-- A row whose tag string contains an inner space. -/
def rowTagsXY : Row :=
  { mkRow "s" "t1" "a" with tags := "x y" }

/-- A row whose tag string is comma-separated. -/
def rowTagsComma : Row :=
  { mkRow "s" "t1" "a" with tags := "x,y" }

/-- Fixed keyword arguments for exercising the query builder. -/
def kw0 : SqlKwargs :=
  { cluster := "C", owners := "O", task_id := "T", dag_id := "D",
    exec_date := "E", application_url_template := "U" }

/-- Spec-side description of the grouping (stated from the specification's
words, to be compared against `groupRuns`): the groups concatenate back to
the input, every row of a group shares the head row's `(schema, name)` key,
and adjacent groups carry distinct keys — i.e. the groups are exactly the
maximal runs of consecutive rows sharing `(schema, name)`. -/
def IsMaximalRunPartition (rows : List Row) (gs : List (Row × List Row)) : Prop :=
  (gs.flatMap fun g => g.1 :: g.2) = rows ∧
  (∀ g ∈ gs, ∀ b ∈ g.2, tableKey b = tableKey g.1) ∧
  List.Chain' (fun g h : Row × List Row => tableKey g.1 ≠ tableKey h.1) gs

/-! ### The claims -/

/-- C1: on every finite row sequence the extractor's grouping yields one
`TableMetadata` per maximal run of consecutive rows sharing `(schema, name)`,
with that record's columns built from each row of the run in arrival order;
in particular the rows `[(s,t1,a), (s,t1,b), (s,t2,c)]` yield exactly the two
records `t1` (columns `[a,b]`) and `t2` (columns `[c]`), and non-contiguous
`t1` rows separated by a `t2` row yield two separate `t1` records. -/
theorem grouping_yields_maximal_runs (sep : Option String) (rows : List Row) :
    IsMaximalRunPartition rows (groupRuns rows) ∧
    getExtractIter sep rows =
      ((groupRuns rows).map fun g => buildTableMetadata sep g.1 g.2) ∧
    (∀ g ∈ groupRuns rows,
      (buildTableMetadata sep g.1 g.2).columns = (g.1 :: g.2).map buildColumn) ∧
    ((getExtractIter none rowsContig).map fun t =>
        (t.schema, t.name, t.columns.map fun c => c.name)) =
      [("s", "t1", ["a", "b"]), ("s", "t2", ["c"])] ∧
    ((getExtractIter none rowsSplit).map fun t =>
        (t.schema, t.name, t.columns.map fun c => c.name)) =
      [("s", "t1", ["a"]), ("s", "t2", ["b"]), ("s", "t1", ["c"])] := by
  refine ⟨⟨groupRuns_join rows, groupRuns_const rows, groupRuns_chain rows⟩,
    rfl, ?_, by decide, by decide⟩
  intro g _
  rfl

/-- C3: the WHERE clause built by `init` for the four flag combinations:
both exclusions conjoined when both flags are set, the single corresponding
negation when exactly one is set, and the empty clause (just the statement
terminator) when neither is. -/
theorem init_where_stmt_four_way :
    buildWhereStmt true true =
      "WHERE nested_0.TABLE_TYPE != \x27SYSTEM_TABLE\x27 AND nested_0.TABLE_TYPE != \x27TABLE\x27;" ∧
    buildWhereStmt true false = "WHERE nested_0.TABLE_TYPE != \x27SYSTEM_TABLE\x27;" ∧
    buildWhereStmt false true = "WHERE nested_0.TABLE_TYPE != \x27TABLE\x27;" ∧
    buildWhereStmt false false = ";" :=
  ⟨rfl, rfl, rfl, rfl⟩

/-- C7: once `extract()` has returned an empty result, every further call
also returns an empty result and leaves the iterator state unchanged —
exhaustion is an idempotent terminal state (and the embedding is total, so
no call raises). -/
theorem extract_exhaustion_idempotent (tables : List TableMetadata)
    (st : Option (List TableMetadata)) (h : (extractStep tables st).1 = none) :
    extractStep tables (extractStep tables st).2 = (none, (extractStep tables st).2) := by
  rcases st with _ | rem
  · rcases tables with _ | ⟨t, ts⟩
    · rfl
    · simp [extractStep, nextFromIter] at h
  · rcases rem with _ | ⟨t, ts⟩
    · rfl
    · simp [extractStep, nextFromIter] at h

/-- Witness for C7 at the concrete exhausted state of an empty cursor. -/
theorem extract_exhaustion_idempotent_witness :
    (extractStep ([] : List TableMetadata) (some [])).1 = none ∧
    extractStep ([] : List TableMetadata) (extractStep ([] : List TableMetadata) (some [])).2 =
      (none, (extractStep ([] : List TableMetadata) (some [])).2) :=
  ⟨rfl, extract_exhaustion_idempotent [] (some []) rfl⟩

/-- C9: every `TableMetadata` emitted by the extractor has a non-empty
column list, since each group contributes one `ColumnMetadata` per row and
groups are non-empty. -/
theorem emitted_columns_nonempty (sep : Option String) (rows : List Row)
    (t : TableMetadata) (ht : t ∈ getExtractIter sep rows) : t.columns ≠ [] := by
  rcases List.mem_map.mp ht with ⟨g, _, rfl⟩
  simp [buildTableMetadata]

/-- Witness for C9 on a concrete one-row input. -/
theorem emitted_columns_nonempty_witness :
    buildTableMetadata none (mkRow "s" "t1" "a") [] ∈
      getExtractIter none [mkRow "s" "t1" "a"] ∧
    (buildTableMetadata none (mkRow "s" "t1" "a") []).columns ≠ [] :=
  ⟨by decide, emitted_columns_nonempty none [mkRow "s" "t1" "a"] _ (by decide)⟩

/-- C10: concatenating the column lists of all emitted records, in emission
order, is exactly the per-row `ColumnMetadata` sequence of the input, in
input order — the grouping neither drops, duplicates nor reorders columns. -/
theorem grouping_preserves_column_stream (sep : Option String) (rows : List Row) :
    ((getExtractIter sep rows).flatMap fun t => t.columns) = rows.map buildColumn := by
  unfold getExtractIter
  rw [List.flatMap_map]
  have : ((groupRuns rows).flatMap fun g => (buildTableMetadata sep g.1 g.2).columns) =
      (groupRuns rows).flatMap fun g => (g.1 :: g.2).map buildColumn := rfl
  rw [this, ← List.map_flatMap, groupRuns_join]

/-- C2: for a group whose rows come from `SQL_STATEMENT`'s SELECT list, the
emitted record's `is_view` is true exactly when the last row of the group
comes from a table whose `TABLE_TYPE` is `'VIEW'` (the SQL `CASE` renders the
comparison as a boolean that reaches Python as `'true'`/`'false'`, and the
extractor compares it with `'true'`). -/
theorem is_view_iff_table_type_view (sep : Option String) (cluster : String)
    (s0 : SourceRow) (srest : List SourceRow) :
    (buildTableMetadata sep (selectRow cluster s0)
        (srest.map (selectRow cluster))).is_view = true ↔
      (srest.getLastD s0).TABLE_TYPE = "VIEW" := by
  show (((srest.map (selectRow cluster)).getLastD (selectRow cluster s0)).is_view
    == "true") = true ↔ _
  rw [getLastD_map]
  by_cases h : (srest.getLastD s0).TABLE_TYPE = "VIEW" <;> simp [selectRow, h]

/-- C5: every record emitted for a group takes its scalar fields (database,
cluster, schema, name, description, is_view, tags) from the last row of that
group. -/
theorem scalars_from_last_row (sep : Option String) (rows : List Row)
    (g : Row × List Row) (hg : g ∈ groupRuns rows) :
    buildTableMetadata sep g.1 g.2 ∈ getExtractIter sep rows ∧
    (buildTableMetadata sep g.1 g.2).database =
      ((g.1 :: g.2).getLast (List.cons_ne_nil g.1 g.2)).database ∧
    (buildTableMetadata sep g.1 g.2).cluster =
      ((g.1 :: g.2).getLast (List.cons_ne_nil g.1 g.2)).cluster ∧
    (buildTableMetadata sep g.1 g.2).schema =
      ((g.1 :: g.2).getLast (List.cons_ne_nil g.1 g.2)).schema ∧
    (buildTableMetadata sep g.1 g.2).name =
      ((g.1 :: g.2).getLast (List.cons_ne_nil g.1 g.2)).name ∧
    (buildTableMetadata sep g.1 g.2).description =
      ((g.1 :: g.2).getLast (List.cons_ne_nil g.1 g.2)).description ∧
    (buildTableMetadata sep g.1 g.2).is_view =
      (((g.1 :: g.2).getLast (List.cons_ne_nil g.1 g.2)).is_view == "true") ∧
    (buildTableMetadata sep g.1 g.2).tags =
      (if ((g.1 :: g.2).getLast (List.cons_ne_nil g.1 g.2)).tags ≠ "" then
        some (pySplit ((g.1 :: g.2).getLast (List.cons_ne_nil g.1 g.2)).tags sep)
      else none) := by
  rw [getLast_cons_eq_getLastD]
  exact ⟨List.mem_map_of_mem _ hg, rfl, rfl, rfl, rfl, rfl, rfl, rfl⟩

/-- Witness for C5 on a concrete two-row group. -/
theorem scalars_from_last_row_witness :
    (mkRow "s" "t1" "a", [mkRow "s" "t1" "b"]) ∈
      groupRuns [mkRow "s" "t1" "a", mkRow "s" "t1" "b"] ∧
    (buildTableMetadata none (mkRow "s" "t1" "a") [mkRow "s" "t1" "b"] ∈
      getExtractIter none [mkRow "s" "t1" "a", mkRow "s" "t1" "b"] ∧
    (buildTableMetadata none (mkRow "s" "t1" "a") [mkRow "s" "t1" "b"]).database =
      (([mkRow "s" "t1" "a", mkRow "s" "t1" "b"] :
          List Row).getLast (List.cons_ne_nil _ _)).database ∧
    (buildTableMetadata none (mkRow "s" "t1" "a") [mkRow "s" "t1" "b"]).cluster =
      (([mkRow "s" "t1" "a", mkRow "s" "t1" "b"] :
          List Row).getLast (List.cons_ne_nil _ _)).cluster ∧
    (buildTableMetadata none (mkRow "s" "t1" "a") [mkRow "s" "t1" "b"]).schema =
      (([mkRow "s" "t1" "a", mkRow "s" "t1" "b"] :
          List Row).getLast (List.cons_ne_nil _ _)).schema ∧
    (buildTableMetadata none (mkRow "s" "t1" "a") [mkRow "s" "t1" "b"]).name =
      (([mkRow "s" "t1" "a", mkRow "s" "t1" "b"] :
          List Row).getLast (List.cons_ne_nil _ _)).name ∧
    (buildTableMetadata none (mkRow "s" "t1" "a") [mkRow "s" "t1" "b"]).description =
      (([mkRow "s" "t1" "a", mkRow "s" "t1" "b"] :
          List Row).getLast (List.cons_ne_nil _ _)).description ∧
    (buildTableMetadata none (mkRow "s" "t1" "a") [mkRow "s" "t1" "b"]).is_view =
      ((([mkRow "s" "t1" "a", mkRow "s" "t1" "b"] :
          List Row).getLast (List.cons_ne_nil _ _)).is_view == "true") ∧
    (buildTableMetadata none (mkRow "s" "t1" "a") [mkRow "s" "t1" "b"]).tags =
      (if (([mkRow "s" "t1" "a", mkRow "s" "t1" "b"] :
            List Row).getLast (List.cons_ne_nil _ _)).tags ≠ "" then
        some (pySplit (([mkRow "s" "t1" "a", mkRow "s" "t1" "b"] :
            List Row).getLast (List.cons_ne_nil _ _)).tags none)
      else none)) :=
  ⟨by decide,
    scalars_from_last_row none [mkRow "s" "t1" "a", mkRow "s" "t1" "b"]
      (mkRow "s" "t1" "a", [mkRow "s" "t1" "b"]) (by decide)⟩

/-- C4 counterexample: under the default configuration (no separator) the tag
string `"x y"` is split into two tags, not kept as the single whole-string
tag the claim asserts. -/
theorem default_sep_whole_tag_counterexample :
    (buildTableMetadata none rowTagsXY []).tags = some ["x", "y"] ∧
    (buildTableMetadata none rowTagsXY []).tags ≠ some ["x y"] := by
  constructor
  · decide
  · decide

/-- C4 (amended): `tags` is null when the last row's tag string is empty,
otherwise the tag string split on the configured separator (`"x,y"` with
separator `","` gives `["x","y"]`); under the default configuration (no
separator) the split is Python whitespace splitting, so a non-empty tag
string is a single whole-string tag only when it contains no whitespace. -/
theorem tags_from_separator (sep : Option String) (sepStr : String)
    (a : Row) (run : List Row) :
    (((run.getLastD a).tags = "" → (buildTableMetadata sep a run).tags = none) ∧
    ((run.getLastD a).tags ≠ "" →
      (buildTableMetadata (some sepStr) a run).tags =
        some (pySplit (run.getLastD a).tags (some sepStr))) ∧
    ((run.getLastD a).tags ≠ "" →
      (buildTableMetadata none a run).tags = some (pySplitNone (run.getLastD a).tags)) ∧
    ((run.getLastD a).tags ≠ "" →
      (∀ c ∈ (run.getLastD a).tags.toList, isPySpace c = false) →
      (buildTableMetadata none a run).tags = some [(run.getLastD a).tags])) ∧
    (buildTableMetadata (some ",") rowTagsComma []).tags = some ["x", "y"] ∧
    (buildTableMetadata none rowTagsXY []).tags = some ["x", "y"] := by
  refine ⟨⟨?_, ?_, ?_, ?_⟩, by decide, by decide⟩
  · intro h; simp only [List.getLastD_eq_getLast?] at h; simp [buildTableMetadata, h]
  · intro h; simp only [List.getLastD_eq_getLast?] at h; simp [buildTableMetadata, h]
  · intro h; simp only [List.getLastD_eq_getLast?] at h
    simp [buildTableMetadata, pySplit, h]
  · intro h hc
    have hs := pySplitNone_single _ h hc
    simp only [List.getLastD_eq_getLast?] at h hs
    simp [buildTableMetadata, pySplit, h, hs]

/-- Witness for C4's amended theorem at a concrete whitespace-free tag. -/
theorem tags_from_separator_witness :
    (((([] : List Row).getLastD rowTagsComma).tags = "" →
      (buildTableMetadata (some ",") rowTagsComma []).tags = none) ∧
    ((([] : List Row).getLastD rowTagsComma).tags ≠ "" →
      (buildTableMetadata (some ",") rowTagsComma []).tags =
        some (pySplit (([] : List Row).getLastD rowTagsComma).tags (some ","))) ∧
    ((([] : List Row).getLastD rowTagsComma).tags ≠ "" →
      (buildTableMetadata none rowTagsComma []).tags =
        some (pySplitNone (([] : List Row).getLastD rowTagsComma).tags)) ∧
    ((([] : List Row).getLastD rowTagsComma).tags ≠ "" →
      (∀ c ∈ (([] : List Row).getLastD rowTagsComma).tags.toList, isPySpace c = false) →
      (buildTableMetadata none rowTagsComma []).tags =
        some [(([] : List Row).getLastD rowTagsComma).tags])) ∧
    (buildTableMetadata (some ",") rowTagsComma []).tags = some ["x", "y"] ∧
    (buildTableMetadata none rowTagsXY []).tags = some ["x", "y"] :=
  tags_from_separator (some ",") "," rowTagsComma []

/-- C6: for every template and filter kind, `get_sql_statement` renders the
WHERE clause with no fragment when no filter spec is supplied, with an empty
column prefix for a bare filter kind, and with the prefix followed by a
literal `.` for a `(kind, prefix)` pair with non-empty prefix; in particular
`(EXCLUDE_PDS_TABLES, "t")` renders a statement containing
`t.TABLE_TYPE != 'TABLE'`. -/
theorem query_builder_filter_spec_modes (tid k pfx : String) (kw : SqlKwargs)
    (htid : tid ∈ sqlStatementMembers) (hk : k ∈ sqlWhereStatementMembers)
    (hp : pfx ≠ "") :
    get_sql_statement tid .absent kw = renderStmt tid kw "" ∧
    get_sql_statement tid (.bare k) kw =
      (whereFragment k "").bind (renderStmt tid kw) ∧
    get_sql_statement tid (.withPfx k pfx) kw =
      (whereFragment k (pfx ++ ".")).bind (renderStmt tid kw) ∧
    (∃ pre post, get_sql_statement tid (.withPfx "EXCLUDE_PDS_TABLES" "t") kw =
      some (pre ++ "t.TABLE_TYPE != \x27TABLE\x27" ++ post)) := by
  simp only [sqlStatementMembers, sqlWhereStatementMembers, List.mem_cons,
    List.not_mem_nil, or_false] at htid hk
  have hex : ∃ pre post, get_sql_statement tid (.withPfx "EXCLUDE_PDS_TABLES" "t") kw =
      some (pre ++ "t.TABLE_TYPE != \x27TABLE\x27" ++ post) := by
    rcases htid with rfl | rfl
    · refine ⟨"\n    SELECT\n      TABLE_CATALOG AS db_name,\n      TABLE_SCHEMA AS schema,\n      \x27"
        ++ kw.cluster ++ "\x27 as cluster,\n      TABLE_NAME AS table_name,\n      \x27"
        ++ kw.owners ++ "\x27 AS owners\n    FROM INFORMATION_SCHEMA.\"TABLES\"\n    WHERE ",
        ";\n    ", ?_⟩
      simp [get_sql_statement, whereStmtMapping, sqlStmtMapping, List.lookup,
        tableOwnerInitStmt, tableTypeNotPdsExpr, String.append_assoc]
    · refine ⟨"\n    SELECT\n      \x27"
        ++ kw.task_id ++ "\x27 as task_id,\n      \x27"
        ++ kw.dag_id ++ "\x27 as dag_id,\n      \x27"
        ++ kw.exec_date ++ "\x27 as exec_date,\n      \x27"
        ++ kw.application_url_template
        ++ "\x27 as application_url_template,\n      TABLE_CATALOG AS db_name,\n      \x27"
        ++ kw.cluster
        ++ "\x27 as cluster,\n      TABLE_SCHEMA AS schema,\n      TABLE_NAME AS table_name\n    FROM INFORMATION_SCHEMA.\"TABLES\"\n    WHERE ",
        ";\n    ", ?_⟩
      simp [get_sql_statement, whereStmtMapping, sqlStmtMapping, List.lookup,
        applicationContextInitStmt, tableTypeNotPdsExpr, String.append_assoc]
  refine ⟨?_, ?_, ?_, hex⟩ <;>
    rcases htid with rfl | rfl <;> rcases hk with rfl | rfl | rfl | rfl <;>
      simp [get_sql_statement, whereFragment, renderStmt, whereStmtMapping,
        sqlStmtMapping, List.lookup, hp]

/-- Witness for C6 at concrete template, filter kind, prefix and keyword
arguments. -/
theorem query_builder_filter_spec_modes_witness :
    ("TABLE_OWNER_INIT" ∈ sqlStatementMembers ∧
      "EXCLUDE_SYS_TABLES" ∈ sqlWhereStatementMembers ∧ ("t" : String) ≠ "") ∧
    (get_sql_statement "TABLE_OWNER_INIT" .absent kw0 =
        renderStmt "TABLE_OWNER_INIT" kw0 "" ∧
      get_sql_statement "TABLE_OWNER_INIT" (.bare "EXCLUDE_SYS_TABLES") kw0 =
        (whereFragment "EXCLUDE_SYS_TABLES" "").bind (renderStmt "TABLE_OWNER_INIT" kw0) ∧
      get_sql_statement "TABLE_OWNER_INIT" (.withPfx "EXCLUDE_SYS_TABLES" "t") kw0 =
        (whereFragment "EXCLUDE_SYS_TABLES" ("t" ++ ".")).bind
          (renderStmt "TABLE_OWNER_INIT" kw0) ∧
      (∃ pre post,
        get_sql_statement "TABLE_OWNER_INIT" (.withPfx "EXCLUDE_PDS_TABLES" "t") kw0 =
          some (pre ++ "t.TABLE_TYPE != \x27TABLE\x27" ++ post))) :=
  ⟨⟨by decide, by decide, by decide⟩,
    query_builder_filter_spec_modes "TABLE_OWNER_INIT" "EXCLUDE_SYS_TABLES" "t" kw0
      (by decide) (by decide) (by decide)⟩

/-- The success of `get_sql_statement` as a function of the two dictionary
lookups it performs. -/
theorem get_sql_statement_isSome_eq (tid : String) (ws : WhereSpec) (kw : SqlKwargs) :
    (get_sql_statement tid ws kw).isSome =
      ((whereStmtMapping.lookup (whereKind ws)).isSome &&
        (sqlStmtMapping.lookup tid).isSome) := by
  cases ws <;>
    (simp only [get_sql_statement, whereKind]
     rcases whereStmtMapping.lookup _ with _ | wf <;>
       rcases sqlStmtMapping.lookup tid with _ | tf <;> rfl)

/-- C8: `get_sql_statement` succeeds exactly when the supplied template
identifier and the (resolved) filter kind are both enumerated members; any
other key makes one of the two dictionary lookups fail with `KeyError`. -/
theorem query_builder_keyerror_iff (tid : String) (ws : WhereSpec) (kw : SqlKwargs) :
    (get_sql_statement tid ws kw).isSome = true ↔
      (tid ∈ sqlStatementMembers ∧ whereKind ws ∈ sqlWhereStatementMembers) := by
  rw [get_sql_statement_isSome_eq, Bool.and_eq_true,
    lookup_whereStmtMapping_isSome, lookup_sqlStmtMapping_isSome, and_comm]

end Dremio
